import Mathlib

/-!
Verification of the two Grafana-dashboard patch scripts
`monitoring/add_db_panels.py` and `monitoring/add_tx_creation_panel.py`.

A dashboard is modelled as the ordered list of its panel records.  Each
panel record is a Python dict, modelled as an insertion-ordered list of
key/value pairs whose values are JSON values.  Script runs are modelled as
functions from the panel list to `Except ScriptErr (List PanelR)`:
`.error .anchorMissing` is the explicit `sys.exit(1)` path (diagnostic
printed, nothing written back), `.error .crash` is an uncaught Python
exception (KeyError / TypeError, also terminating before the write-back),
and `.ok out` is a successful run that persists `out`.
-/

set_option maxHeartbeats 1000000

namespace Spec2Proof

/-- JSON values, as produced by `json.load` / Python dict and list literals.
Numbers occurring in these scripts are all integers. -/
inductive Json where
  | null : Json
  | bool : Bool → Json
  | num : Int → Json
  | str : String → Json
  | arr : List Json → Json
  | obj : List (String × Json) → Json

/-- A panel record: a Python dict with JSON values, keys in insertion order. -/
abbrev PanelR := List (String × Json)

/-- Python `d.get(k)` / `d[k]` on a dict (keys are unique, first match). -/
def getKey : PanelR → String → Option Json
  | [], _ => none
  | kv :: rest, k => if kv.1 == k then some kv.2 else getKey rest k

/-- Python `d[k] = v`: replace in place if the key exists, else append. -/
def setKey : PanelR → String → Json → PanelR
  | [], k, v => [(k, v)]
  | kv :: rest, k, v => if kv.1 == k then (k, v) :: rest else kv :: setKey rest k v

/-- Outcome of a run that does not write the dashboard back: `anchorMissing`
is the diagnostic-plus-`sys.exit(1)` path, `crash` an uncaught exception. -/
inductive ScriptErr where
  | anchorMissing : ScriptErr
  | crash : ScriptErr
deriving DecidableEq

/-- Test in the anchor-search loops: `panel.get('type') == 'row' and
panel.get('title') == target`. -/
def isRowTitled (target : String) (p : PanelR) : Bool :=
  match getKey p "type", getKey p "title" with
  | some (Json.str ty), some (Json.str ti) => ty == "row" && ti == target
  | _, _ => false

/-- Test in the section-end loop: `panel.get('type') == 'row'`. -/
def isRowType (p : PanelR) : Bool :=
  match getKey p "type" with
  | some (Json.str ty) => ty == "row"
  | _ => false

/-- Test `panel.get('id') == 300` (with `n` the reserved id). -/
def hasId (n : Int) (p : PanelR) : Bool :=
  match getKey p "id" with
  | some (Json.num m) => m == n
  | _ => false

/-- Index of the first list element satisfying `p`, as computed by the
`for i, panel in enumerate(...)` search loops. -/
def findFirst {α : Type} (p : α → Bool) : List α → Option Nat
  | [] => none
  | x :: xs => if p x then some 0 else (findFirst p xs).map (· + 1)

/-- Anchor search: first panel of type `row` with the given title. -/
def findRowIdx (target : String) (panels : List PanelR) : Option Nat :=
  findFirst (isRowTitled target) panels

/-- The `while insert_index < len(panels) and panels[insert_index].get('type')
!= 'row'` loop, scanning the dropped tail while carrying the index. -/
def sectionEndFrom : List PanelR → Nat → Nat
  | [], i => i
  | p :: rest, i => if isRowType p then i else sectionEndFrom rest (i + 1)

/-- Section end: scan forward from index `i` until the next `row` panel. -/
def sectionEnd (panels : List PanelR) (i : Nat) : Nat :=
  sectionEndFrom (panels.drop i) i

/-- Run `f` over a list left to right, failing if any element fails (a
failing element raises, aborting the whole run before the write-back). -/
def mapOpt {α : Type} (f : α → Option α) : List α → Option (List α)
  | [] => some []
  | x :: xs =>
    match f x, mapOpt f xs with
    | some y, some ys => some (y :: ys)
    | _, _ => none

/-- Factory of `add_db_panels.py`: a collapsible row panel. -/
def create_row_panel (title : String) (y_pos : Int) (panel_id : Int) : PanelR :=
  [ ("collapsed", Json.bool false),
    ("gridPos", Json.obj
      [ ("h", Json.num 1),
        ("w", Json.num 24),
        ("x", Json.num 0),
        ("y", Json.num y_pos) ]),
    ("id", Json.num panel_id),
    ("panels", Json.arr []),
    ("title", Json.str title),
    ("type", Json.str "row") ]

/-- Factory of `add_db_panels.py`: a time series panel.  The Python
defaults `description=""` and `unit="short"` are passed explicitly by
every call here. -/
def create_timeseries_panel (title : String) (expr : String) (legend_format : String)
    (x : Int) (y : Int) (w : Int) (h : Int) (panel_id : Int)
    (description : String) (unit : String) : PanelR :=
  [ ("datasource", Json.str "Prometheus"),
    ("description", Json.str description),
    ("fieldConfig", Json.obj
      [ ("defaults", Json.obj
          [ ("color", Json.obj [("mode", Json.str "palette-classic")]),
            ("custom", Json.obj
              [ ("axisBorderShow", Json.bool false),
                ("axisCenteredZero", Json.bool false),
                ("axisColorMode", Json.str "text"),
                ("axisLabel", Json.str ""),
                ("axisPlacement", Json.str "auto"),
                ("barAlignment", Json.num 0),
                ("drawStyle", Json.str "line"),
                ("fillOpacity", Json.num 10),
                ("gradientMode", Json.str "none"),
                ("hideFrom", Json.obj
                  [ ("legend", Json.bool false),
                    ("tooltip", Json.bool false),
                    ("viz", Json.bool false) ]),
                ("insertNulls", Json.bool false),
                ("lineInterpolation", Json.str "smooth"),
                ("lineWidth", Json.num 1),
                ("pointSize", Json.num 5),
                ("scaleDistribution", Json.obj [("type", Json.str "linear")]),
                ("showPoints", Json.str "auto"),
                ("spanNulls", Json.bool false),
                ("stacking", Json.obj
                  [ ("group", Json.str "A"),
                    ("mode", Json.str "none") ]),
                ("thresholdsStyle", Json.obj [("mode", Json.str "off")]) ]),
            ("mappings", Json.arr []),
            ("thresholds", Json.obj
              [ ("mode", Json.str "absolute"),
                ("steps", Json.arr
                  [ Json.obj [("color", Json.str "green"), ("value", Json.null)],
                    Json.obj [("color", Json.str "red"), ("value", Json.num 80)] ]) ]),
            ("unit", Json.str unit) ]),
        ("overrides", Json.arr []) ]),
    ("gridPos", Json.obj
      [ ("h", Json.num h),
        ("w", Json.num w),
        ("x", Json.num x),
        ("y", Json.num y) ]),
    ("id", Json.num panel_id),
    ("options", Json.obj
      [ ("legend", Json.obj
          [ ("calcs", Json.arr [Json.str "last"]),
            ("displayMode", Json.str "table"),
            ("placement", Json.str "bottom"),
            ("showLegend", Json.bool true) ]),
        ("tooltip", Json.obj
          [ ("mode", Json.str "multi"),
            ("sort", Json.str "desc") ]) ]),
    ("targets", Json.arr
      [ Json.obj
          [ ("datasource", Json.obj
              [ ("type", Json.str "prometheus"),
                ("uid", Json.str "Prometheus") ]),
            ("editorMode", Json.str "code"),
            ("expr", Json.str expr),
            ("instant", Json.bool false),
            ("legendFormat", Json.str legend_format),
            ("range", Json.bool true),
            ("refId", Json.str "A") ] ]),
    ("title", Json.str title),
    ("type", Json.str "timeseries") ]

/-- Factory of `add_db_panels.py`: a stat panel.  Defaults
`description=""`, `unit="short"`, `colorMode="value"` passed explicitly. -/
def create_stat_panel (title : String) (expr : String)
    (x : Int) (y : Int) (w : Int) (h : Int) (panel_id : Int)
    (description : String) (unit : String) (colorMode : String) : PanelR :=
  [ ("datasource", Json.str "Prometheus"),
    ("description", Json.str description),
    ("fieldConfig", Json.obj
      [ ("defaults", Json.obj
          [ ("color", Json.obj [("mode", Json.str "thresholds")]),
            ("mappings", Json.arr []),
            ("thresholds", Json.obj
              [ ("mode", Json.str "absolute"),
                ("steps", Json.arr
                  [ Json.obj [("color", Json.str "green"), ("value", Json.null)],
                    Json.obj [("color", Json.str "red"), ("value", Json.num 80)] ]) ]),
            ("unit", Json.str unit) ]),
        ("overrides", Json.arr []) ]),
    ("gridPos", Json.obj
      [ ("h", Json.num h),
        ("w", Json.num w),
        ("x", Json.num x),
        ("y", Json.num y) ]),
    ("id", Json.num panel_id),
    ("options", Json.obj
      [ ("colorMode", Json.str colorMode),
        ("graphMode", Json.str "area"),
        ("justifyMode", Json.str "auto"),
        ("orientation", Json.str "auto"),
        ("reduceOptions", Json.obj
          [ ("calcs", Json.arr [Json.str "lastNotNull"]),
            ("fields", Json.str ""),
            ("values", Json.bool false) ]),
        ("textMode", Json.str "auto") ]),
    ("pluginVersion", Json.str "11.2.0"),
    ("targets", Json.arr
      [ Json.obj
          [ ("datasource", Json.obj
              [ ("type", Json.str "prometheus"),
                ("uid", Json.str "Prometheus") ]),
            ("editorMode", Json.str "code"),
            ("expr", Json.str expr),
            ("instant", Json.bool true),
            ("legendFormat", Json.str "__auto"),
            ("range", Json.bool false),
            ("refId", Json.str "A") ] ]),
    ("title", Json.str title),
    ("type", Json.str "stat") ]

/-- Factory of `add_db_panels.py`: a gauge panel for percentages.
Defaults `description=""`, `max_value=100` passed explicitly. -/
def create_gauge_panel (title : String) (expr : String)
    (x : Int) (y : Int) (w : Int) (h : Int) (panel_id : Int)
    (description : String) (max_value : Int) : PanelR :=
  [ ("datasource", Json.str "Prometheus"),
    ("description", Json.str description),
    ("fieldConfig", Json.obj
      [ ("defaults", Json.obj
          [ ("color", Json.obj [("mode", Json.str "thresholds")]),
            ("mappings", Json.arr []),
            ("max", Json.num max_value),
            ("min", Json.num 0),
            ("thresholds", Json.obj
              [ ("mode", Json.str "absolute"),
                ("steps", Json.arr
                  [ Json.obj [("color", Json.str "green"), ("value", Json.null)],
                    Json.obj [("color", Json.str "yellow"), ("value", Json.num 70)],
                    Json.obj [("color", Json.str "red"), ("value", Json.num 90)] ]) ]),
            ("unit", Json.str "percent") ]),
        ("overrides", Json.arr []) ]),
    ("gridPos", Json.obj
      [ ("h", Json.num h),
        ("w", Json.num w),
        ("x", Json.num x),
        ("y", Json.num y) ]),
    ("id", Json.num panel_id),
    ("options", Json.obj
      [ ("minVizHeight", Json.num 75),
        ("minVizWidth", Json.num 75),
        ("orientation", Json.str "auto"),
        ("reduceOptions", Json.obj
          [ ("calcs", Json.arr [Json.str "lastNotNull"]),
            ("fields", Json.str ""),
            ("values", Json.bool false) ]),
        ("showThresholdLabels", Json.bool false),
        ("showThresholdMarkers", Json.bool true) ]),
    ("pluginVersion", Json.str "11.2.0"),
    ("targets", Json.arr
      [ Json.obj
          [ ("datasource", Json.obj
              [ ("type", Json.str "prometheus"),
                ("uid", Json.str "Prometheus") ]),
            ("editorMode", Json.str "code"),
            ("expr", Json.str expr),
            ("instant", Json.bool true),
            ("legendFormat", Json.str "__auto"),
            ("range", Json.bool false),
            ("refId", Json.str "A") ] ]),
    ("title", Json.str title),
    ("type", Json.str "gauge") ]

/-- A query target appended to an existing panel by
`panels[-1]["targets"].append(...)` / `.extend([...])` in
`generate_db_panels`; every such dict has this shape. -/
def extraTarget (expr : String) (legendFormat : String) (refId : String) : Json :=
  Json.obj
    [ ("datasource", Json.obj
        [ ("type", Json.str "prometheus"),
          ("uid", Json.str "Prometheus") ]),
      ("editorMode", Json.str "code"),
      ("expr", Json.str expr),
      ("instant", Json.bool false),
      ("legendFormat", Json.str legendFormat),
      ("range", Json.bool true),
      ("refId", Json.str refId) ]

/-- Append extra query targets to a panel record: `p["targets"].extend(ts)`.
Only ever applied to just-created time series panels, whose `targets` key
is always present and an array. -/
def appendTargets (p : PanelR) (ts : List Json) : PanelR :=
  match getKey p "targets" with
  | some (Json.arr old) => setKey p "targets" (Json.arr (old ++ ts))
  | _ => p

/-- Apply `f` to the last element: the `panels[-1]` mutations. -/
def modifyLast (f : PanelR → PanelR) : List PanelR → List PanelR
  | [] => []
  | [p] => [f p]
  | p :: q :: rest => p :: modifyLast f (q :: rest)

/-- The `generate_db_panels` function of `add_db_panels.py`: the full block
of 23 database monitoring panels, with the running `current_y` (starting
at 17) and `panel_id` (starting at 200) tracked by shadowed lets. -/
def generate_db_panels : List PanelR :=
  let current_y : Int := 17
  let panel_id : Int := 200
  let panels : List PanelR := []
  -- Row 1: Database Transactions
  let panels := panels ++ [create_row_panel "Database Transactions" current_y panel_id]
  let panel_id := panel_id + 1
  let current_y := current_y + 1
  -- Transaction creation rates
  let panels := panels ++ [create_timeseries_panel
    "Transaction Creation Rate"
    "rate(katana_db_transaction_ro_created[5m])"
    "Read-Only"
    0 current_y 12 8 panel_id
    "Rate of database transaction creation (read-only vs read-write)"
    "reqps"]
  let panels := modifyLast (appendTargets ·
    [extraTarget "rate(katana_db_transaction_rw_created[5m])" "Read-Write" "B"]) panels
  let panel_id := panel_id + 1
  -- Transaction commit status
  let panels := panels ++ [create_timeseries_panel
    "Transaction Commit Status"
    "rate(katana_db_transaction_commits_successful[5m])"
    "Successful"
    12 current_y 12 8 panel_id
    "Rate of successful vs failed transaction commits"
    "reqps"]
  let panels := modifyLast (appendTargets ·
    [extraTarget "rate(katana_db_transaction_commits_failed[5m])" "Failed" "B"]) panels
  let panels := modifyLast (appendTargets ·
    [extraTarget "rate(katana_db_transaction_aborts[5m])" "Aborted" "C"]) panels
  let panel_id := panel_id + 1
  let current_y := current_y + 8
  -- Transaction stats
  let panels := panels ++ [create_stat_panel
    "Total RO Transactions"
    "katana_db_transaction_ro_created"
    0 current_y 6 4 panel_id
    "Total number of read-only transactions created"
    "short" "value"]
  let panel_id := panel_id + 1
  let panels := panels ++ [create_stat_panel
    "Total RW Transactions"
    "katana_db_transaction_rw_created"
    6 current_y 6 4 panel_id
    "Total number of read-write transactions created"
    "short" "value"]
  let panel_id := panel_id + 1
  let panels := panels ++ [create_stat_panel
    "Successful Commits"
    "katana_db_transaction_commits_successful"
    12 current_y 6 4 panel_id
    "Total number of successful transaction commits"
    "short" "value"]
  let panel_id := panel_id + 1
  let panels := panels ++ [create_stat_panel
    "Failed/Aborted"
    "katana_db_transaction_commits_failed + katana_db_transaction_aborts"
    18 current_y 6 4 panel_id
    "Total number of failed commits and aborted transactions"
    "short" "value"]
  let panel_id := panel_id + 1
  let current_y := current_y + 4
  -- Row 2: Database Operations
  let panels := panels ++ [create_row_panel "Database Operations" current_y panel_id]
  let panel_id := panel_id + 1
  let current_y := current_y + 1
  -- Operation rates
  let panels := panels ++ [create_timeseries_panel
    "Operation Rate by Type"
    "rate(katana_db_operation_puts[5m])"
    "Puts"
    0 current_y 12 8 panel_id
    "Rate of database operations (get, put, delete, clear)"
    "reqps"]
  let panels := modifyLast (appendTargets ·
    [ extraTarget "rate(katana_db_operation_get_hits[5m]) + rate(katana_db_operation_get_misses[5m])" "Gets (Total)" "B",
      extraTarget "rate(katana_db_operation_deletes_successful[5m]) + rate(katana_db_operation_deletes_failed[5m])" "Deletes (Total)" "C",
      extraTarget "rate(katana_db_operation_clears[5m])" "Clears" "D" ]) panels
  let panel_id := panel_id + 1
  -- Operation success rates
  let panels := panels ++ [create_timeseries_panel
    "Delete Success Rate"
    "rate(katana_db_operation_deletes_successful[5m])"
    "Successful"
    12 current_y 12 8 panel_id
    "Delete operation success vs failure rate"
    "reqps"]
  let panels := modifyLast (appendTargets ·
    [extraTarget "rate(katana_db_operation_deletes_failed[5m])" "Failed" "B"]) panels
  let panel_id := panel_id + 1
  let current_y := current_y + 8
  -- Cache hit rate gauge
  let panels := panels ++ [create_gauge_panel
    "Get Cache Hit Rate"
    "100 * rate(katana_db_operation_get_hits[5m]) / (rate(katana_db_operation_get_hits[5m]) + rate(katana_db_operation_get_misses[5m]))"
    0 current_y 6 6 panel_id
    "Percentage of get operations that found a value (cache hit rate)"
    100]
  let panel_id := panel_id + 1
  -- Operation totals
  let panels := panels ++ [create_stat_panel
    "Total Gets"
    "katana_db_operation_get_hits + katana_db_operation_get_misses"
    6 current_y 6 3 panel_id
    "Total number of get operations"
    "short" "value"]
  let panel_id := panel_id + 1
  let panels := panels ++ [create_stat_panel
    "Get Hits"
    "katana_db_operation_get_hits"
    6 (current_y + 3) 3 3 panel_id
    "Number of successful get operations"
    "short" "background"]
  let panel_id := panel_id + 1
  let panels := panels ++ [create_stat_panel
    "Get Misses"
    "katana_db_operation_get_misses"
    9 (current_y + 3) 3 3 panel_id
    "Number of get operations that did not find a value"
    "short" "background"]
  let panel_id := panel_id + 1
  let panels := panels ++ [create_stat_panel
    "Total Puts"
    "katana_db_operation_puts"
    12 current_y 6 3 panel_id
    "Total number of put operations"
    "short" "value"]
  let panel_id := panel_id + 1
  let panels := panels ++ [create_stat_panel
    "Total Deletes"
    "katana_db_operation_deletes_successful + katana_db_operation_deletes_failed"
    18 current_y 6 3 panel_id
    "Total number of delete operations"
    "short" "value"]
  let panel_id := panel_id + 1
  let panels := panels ++ [create_stat_panel
    "Delete Success"
    "katana_db_operation_deletes_successful"
    18 (current_y + 3) 3 3 panel_id
    "Number of successful delete operations"
    "short" "background"]
  let panel_id := panel_id + 1
  let panels := panels ++ [create_stat_panel
    "Delete Failures"
    "katana_db_operation_deletes_failed"
    21 (current_y + 3) 3 3 panel_id
    "Number of failed delete operations"
    "short" "background"]
  let panel_id := panel_id + 1
  let current_y := current_y + 6
  -- Row 3: Performance Metrics
  let panels := panels ++ [create_row_panel "Database Performance" current_y panel_id]
  let panel_id := panel_id + 1
  let current_y := current_y + 1
  -- Commit time
  let panels := panels ++ [create_timeseries_panel
    "Transaction Commit Time (p99)"
    "histogram_quantile(0.99, rate(katana_db_transaction_commit_time_seconds_bucket[5m]))"
    "p99"
    0 current_y 12 8 panel_id
    "99th percentile transaction commit time"
    "s"]
  let panels := modifyLast (appendTargets ·
    [ extraTarget "histogram_quantile(0.95, rate(katana_db_transaction_commit_time_seconds_bucket[5m]))" "p95" "B",
      extraTarget "histogram_quantile(0.50, rate(katana_db_transaction_commit_time_seconds_bucket[5m]))" "p50" "C" ]) panels
  let panel_id := panel_id + 1
  -- Get operation time
  let panels := panels ++ [create_timeseries_panel
    "Get Operation Time (p99)"
    "histogram_quantile(0.99, rate(katana_db_operation_get_time_seconds_bucket[5m]))"
    "p99"
    12 current_y 12 8 panel_id
    "99th percentile get operation time"
    "s"]
  let panels := modifyLast (appendTargets ·
    [ extraTarget "histogram_quantile(0.95, rate(katana_db_operation_get_time_seconds_bucket[5m]))" "p95" "B",
      extraTarget "histogram_quantile(0.50, rate(katana_db_operation_get_time_seconds_bucket[5m]))" "p50" "C" ]) panels
  let panel_id := panel_id + 1
  let current_y := current_y + 8
  -- Put operation time
  let panels := panels ++ [create_timeseries_panel
    "Put Operation Time (p99)"
    "histogram_quantile(0.99, rate(katana_db_operation_put_time_seconds_bucket[5m]))"
    "p99"
    0 current_y 12 8 panel_id
    "99th percentile put operation time"
    "s"]
  let panels := modifyLast (appendTargets ·
    [ extraTarget "histogram_quantile(0.95, rate(katana_db_operation_put_time_seconds_bucket[5m]))" "p95" "B",
      extraTarget "histogram_quantile(0.50, rate(katana_db_operation_put_time_seconds_bucket[5m]))" "p50" "C" ]) panels
  let panel_id := panel_id + 1
  -- Delete operation time
  let panels := panels ++ [create_timeseries_panel
    "Delete Operation Time (p99)"
    "histogram_quantile(0.99, rate(katana_db_operation_delete_time_seconds_bucket[5m]))"
    "p99"
    12 current_y 12 8 panel_id
    "99th percentile delete operation time"
    "s"]
  let panels := modifyLast (appendTargets ·
    [ extraTarget "histogram_quantile(0.95, rate(katana_db_operation_delete_time_seconds_bucket[5m]))" "p95" "B",
      extraTarget "histogram_quantile(0.50, rate(katana_db_operation_delete_time_seconds_bucket[5m]))" "p50" "C" ]) panels
  let _ := panel_id + 1
  panels

/-- Offset-shift step of the bulk script: for every panel from the
insertion index on, `if 'gridPos' in panel: panel['gridPos']['y'] +=
y_offset`.  Missing `gridPos` is a skip; a malformed one raises. -/
def bumpDbPanel (y_offset : Int) (p : PanelR) : Option PanelR :=
  match getKey p "gridPos" with
  | none => some p
  | some (Json.obj g) =>
    match getKey g "y" with
    | some (Json.num n) =>
      some (setKey p "gridPos" (Json.obj (setKey g "y" (Json.num (n + y_offset)))))
    | _ => none
  | some _ => none

/-- The `main` of `add_db_panels.py` on the `panels` array of the loaded
dashboard.  `y_offset = 40` is the hardcoded approximate block height. -/
def add_db_panels_main (panels : List PanelR) : Except ScriptErr (List PanelR) :=
  match findRowIdx "Database" panels with
  | none => Except.error ScriptErr.anchorMissing
  | some db_row_index =>
    let insert_index := sectionEnd panels (db_row_index + 1)
    match mapOpt (bumpDbPanel 40) (panels.drop insert_index) with
    | none => Except.error ScriptErr.crash
    | some shifted =>
      Except.ok (panels.take insert_index ++ generate_db_panels ++ shifted)

/-- The persisted dashboard after a run of the bulk script. -/
def dbRunFile (panels : List PanelR) : List PanelR :=
  match add_db_panels_main panels with
  | Except.ok out => out
  | Except.error _ => panels

/-- Factory of `add_tx_creation_panel.py`: the comprehensive transaction
creation panel.  `y` is a JSON value because the update branch copies
`panel['gridPos']['y']` into it without inspecting it. -/
def create_tx_creation_panel (panel_id : Int) (x : Int) (y : Json) (w : Int) (h : Int) : PanelR :=
  [ ("datasource", Json.str "Prometheus"),
    ("description", Json.str "Transaction creation over time. Shows when read-only (RO) and read-write (RW) transactions are being created (number of new transactions in each time bucket)."),
    ("fieldConfig", Json.obj
      [ ("defaults", Json.obj
          [ ("color", Json.obj [("mode", Json.str "palette-classic")]),
            ("custom", Json.obj
              [ ("axisBorderShow", Json.bool false),
                ("axisCenteredZero", Json.bool false),
                ("axisColorMode", Json.str "text"),
                ("axisLabel", Json.str "Transactions created"),
                ("axisPlacement", Json.str "auto"),
                ("barAlignment", Json.num 0),
                ("drawStyle", Json.str "line"),
                ("fillOpacity", Json.num 15),
                ("gradientMode", Json.str "opacity"),
                ("hideFrom", Json.obj
                  [ ("legend", Json.bool false),
                    ("tooltip", Json.bool false),
                    ("viz", Json.bool false) ]),
                ("insertNulls", Json.bool false),
                ("lineInterpolation", Json.str "smooth"),
                ("lineWidth", Json.num 2),
                ("pointSize", Json.num 5),
                ("scaleDistribution", Json.obj [("type", Json.str "linear")]),
                ("showPoints", Json.str "never"),
                ("spanNulls", Json.bool false),
                ("stacking", Json.obj
                  [ ("group", Json.str "A"),
                    ("mode", Json.str "none") ]),
                ("thresholdsStyle", Json.obj [("mode", Json.str "off")]) ]),
            ("mappings", Json.arr []),
            ("thresholds", Json.obj
              [ ("mode", Json.str "absolute"),
                ("steps", Json.arr
                  [ Json.obj [("color", Json.str "green"), ("value", Json.null)],
                    Json.obj [("color", Json.str "red"), ("value", Json.num 80)] ]) ]),
            ("unit", Json.str "short") ]),
        ("overrides", Json.arr
          [ Json.obj
              [ ("matcher", Json.obj
                  [ ("id", Json.str "byName"),
                    ("options", Json.str "Read-Only (RO)") ]),
                ("properties", Json.arr
                  [ Json.obj
                      [ ("id", Json.str "color"),
                        ("value", Json.obj
                          [ ("fixedColor", Json.str "blue"),
                            ("mode", Json.str "fixed") ]) ] ]) ],
            Json.obj
              [ ("matcher", Json.obj
                  [ ("id", Json.str "byName"),
                    ("options", Json.str "Read-Write (RW)") ]),
                ("properties", Json.arr
                  [ Json.obj
                      [ ("id", Json.str "color"),
                        ("value", Json.obj
                          [ ("fixedColor", Json.str "orange"),
                            ("mode", Json.str "fixed") ]) ] ]) ],
            Json.obj
              [ ("matcher", Json.obj
                  [ ("id", Json.str "byName"),
                    ("options", Json.str "Total") ]),
                ("properties", Json.arr
                  [ Json.obj
                      [ ("id", Json.str "color"),
                        ("value", Json.obj
                          [ ("fixedColor", Json.str "purple"),
                            ("mode", Json.str "fixed") ]) ],
                    Json.obj
                      [ ("id", Json.str "custom.lineStyle"),
                        ("value", Json.obj
                          [ ("dash", Json.arr [Json.num 10, Json.num 10]),
                            ("fill", Json.str "dash") ]) ],
                    Json.obj
                      [ ("id", Json.str "custom.fillOpacity"),
                        ("value", Json.num 0) ] ]) ] ]) ]),
    ("gridPos", Json.obj
      [ ("h", Json.num h),
        ("w", Json.num w),
        ("x", Json.num x),
        ("y", y) ]),
    ("id", Json.num panel_id),
    ("options", Json.obj
      [ ("legend", Json.obj
          [ ("calcs", Json.arr [Json.str "last", Json.str "mean", Json.str "max"]),
            ("displayMode", Json.str "table"),
            ("placement", Json.str "bottom"),
            ("showLegend", Json.bool true),
            ("sortBy", Json.str "Last"),
            ("sortDesc", Json.bool true) ]),
        ("tooltip", Json.obj
          [ ("mode", Json.str "multi"),
            ("sort", Json.str "desc") ]) ]),
    ("pluginVersion", Json.str "11.2.0"),
    ("targets", Json.arr
      [ Json.obj
          [ ("datasource", Json.obj
              [ ("type", Json.str "prometheus"),
                ("uid", Json.str "Prometheus") ]),
            ("editorMode", Json.str "code"),
            ("expr", Json.str "increase(katana_db_transaction_ro_created[$__rate_interval])"),
            ("instant", Json.bool false),
            ("legendFormat", Json.str "Read-Only (RO)"),
            ("range", Json.bool true),
            ("refId", Json.str "A") ],
        Json.obj
          [ ("datasource", Json.obj
              [ ("type", Json.str "prometheus"),
                ("uid", Json.str "Prometheus") ]),
            ("editorMode", Json.str "code"),
            ("expr", Json.str "increase(katana_db_transaction_rw_created[$__rate_interval])"),
            ("instant", Json.bool false),
            ("legendFormat", Json.str "Read-Write (RW)"),
            ("range", Json.bool true),
            ("refId", Json.str "B") ],
        Json.obj
          [ ("datasource", Json.obj
              [ ("type", Json.str "prometheus"),
                ("uid", Json.str "Prometheus") ]),
            ("editorMode", Json.str "code"),
            ("expr", Json.str "increase(katana_db_transaction_ro_created[$__rate_interval]) + increase(katana_db_transaction_rw_created[$__rate_interval])"),
            ("instant", Json.bool false),
            ("legendFormat", Json.str "Total"),
            ("range", Json.bool true),
            ("refId", Json.str "C") ] ]),
    ("title", Json.str "Transaction Creation"),
    ("type", Json.str "timeseries") ]

/-- Offset-shift step of the singleton script: for a panel after the
insertion point, `if 'gridPos' in panel: if panel['gridPos']['y'] >=
new_panel_y: panel['gridPos']['y'] += 8` (`y_offset = 8`).  A missing
`gridPos` is a skip; a malformed one raises (`none`). -/
def bumpTxPanel (new_panel_y : Int) (p : PanelR) : Option PanelR :=
  match getKey p "gridPos" with
  | none => some p
  | some (Json.obj g) =>
    match getKey g "y" with
    | some (Json.num n) =>
      if n ≥ new_panel_y
      then some (setKey p "gridPos" (Json.obj (setKey g "y" (Json.num (n + 8)))))
      else some p
    | _ => none
  | some _ => none

/-- The `main` of `add_tx_creation_panel.py` on the `panels` array of the
loaded dashboard (the rest of the document is never touched). -/
def add_tx_creation_panel_main (panels : List PanelR) : Except ScriptErr (List PanelR) :=
  match findRowIdx "Database Transactions" panels with
  | none => Except.error ScriptErr.anchorMissing
  | some db_tx_row_index =>
    if panels.any (hasId 300) then
      match findFirst (hasId 300) panels with
      | none => Except.error ScriptErr.crash
      | some i =>
        match panels[i]? with
        | none => Except.error ScriptErr.crash
        | some p =>
          match getKey p "gridPos" with
          | some (Json.obj g) =>
            match getKey g "y" with
            | some y_pos =>
              Except.ok (panels.set i (create_tx_creation_panel 300 0 y_pos 24 8))
            | none => Except.error ScriptErr.crash
          | _ => Except.error ScriptErr.crash
    else
      let insert_index := db_tx_row_index + 1
      match panels[db_tx_row_index]? with
      | none => Except.error ScriptErr.crash
      | some rowp =>
        match getKey rowp "gridPos" with
        | some (Json.obj g) =>
          match getKey g "y" with
          | some (Json.num row_y) =>
            match mapOpt (bumpTxPanel (row_y + 1)) (panels.drop insert_index) with
            | none => Except.error ScriptErr.crash
            | some shifted =>
              Except.ok (panels.take insert_index ++
                create_tx_creation_panel 300 0 (Json.num (row_y + 1)) 24 8 :: shifted)
          | _ => Except.error ScriptErr.crash
        | _ => Except.error ScriptErr.crash

/-- The persisted dashboard after a run of the singleton script: on any
error path the process dies before `json.dump`, so the file keeps its
previous contents. -/
def txRunFile (panels : List PanelR) : List PanelR :=
  match add_tx_creation_panel_main panels with
  | Except.ok out => out
  | Except.error _ => panels

/-- Numeric panel id of a record, when present (the data model gives every
panel a numeric id; records without one contribute no id). -/
def idOf (p : PanelR) : Option Int :=
  match getKey p "id" with
  | some (Json.num n) => some n
  | _ => none

/-- The numeric panel ids of a dashboard, in order. -/
def panelIdNums (panels : List PanelR) : List Int :=
  panels.filterMap idOf

/-- Numeric field `k` of the layout rectangle of a panel, when present. -/
def gridField (k : String) (p : PanelR) : Option Int :=
  match getKey p "gridPos" with
  | some (Json.obj g) =>
    match getKey g k with
    | some (Json.num n) => some n
    | _ => none
  | _ => none

/-- Bottom edge `y + h` of a panel with a full layout rectangle. -/
def panelBottom (p : PanelR) : Option Int :=
  match gridField "y" p, gridField "h" p with
  | some y, some h => some (y + h)
  | _, _ => none

/-- Topmost `y` of a block of panels. -/
def blockTop (ps : List PanelR) : Option Int :=
  (ps.filterMap (gridField "y")).min?

/-- Bottommost `y + h` of a block of panels. -/
def blockBottom (ps : List PanelR) : Option Int :=
  (ps.filterMap panelBottom).max?

/-- Total vertical height of a block: bottommost edge minus topmost `y`. -/
def blockHeight (ps : List PanelR) : Option Int :=
  match blockTop ps, blockBottom ps with
  | some t, some b => some (b - t)
  | _, _ => none

/-- The insertion index as the spec words it: the index of the next panel
of kind `row` strictly after the anchor index `i`, or the length of the
panel sequence when no further row panel exists. -/
def insertionIndexSpec (panels : List PanelR) (i : Nat) : Nat :=
  match findFirst isRowType (panels.drop (i + 1)) with
  | some k => i + 1 + k
  | none => panels.length

/-- Concrete anchor row of the bulk-script scenarios: id 1, type row,
title Database, at y = 10. -/
def dbAnchorRow : PanelR :=
  [ ("id", Json.num 1), ("type", Json.str "row"), ("title", Json.str "Database"),
    ("gridPos", Json.obj [("y", Json.num 10)]) ]

/-- Concrete stat panel of the C4 scenario: id 2, at y = 12. -/
def statPanel2 : PanelR :=
  [ ("id", Json.num 2), ("type", Json.str "stat"),
    ("gridPos", Json.obj [("y", Json.num 12)]) ]

/-- The C4 concrete input dashboard. -/
def dashC4 : List PanelR := [dbAnchorRow, statPanel2]

/-- A second row panel below the Database anchor, at y = 12. -/
def otherRow : PanelR :=
  [ ("id", Json.num 2), ("type", Json.str "row"), ("title", Json.str "Other"),
    ("gridPos", Json.obj [("y", Json.num 12)]) ]

/-- Input with a panel below the insertion point, so the offset shift runs. -/
def dashC1 : List PanelR := [dbAnchorRow, otherRow]

/-- Concrete anchor row of the singleton-script scenarios. -/
def txAnchorRow : PanelR :=
  [ ("id", Json.num 10), ("type", Json.str "row"),
    ("title", Json.str "Database Transactions"),
    ("gridPos", Json.obj
      [("h", Json.num 1), ("w", Json.num 24), ("x", Json.num 0), ("y", Json.num 4)]) ]

/-- A stale panel with the reserved id 300 at y = 5, full width. -/
def staleTxPanel : PanelR :=
  [ ("id", Json.num 300), ("type", Json.str "timeseries"),
    ("title", Json.str "Transaction Creation"),
    ("gridPos", Json.obj
      [("h", Json.num 8), ("w", Json.num 24), ("x", Json.num 0), ("y", Json.num 5)]),
    ("targets", Json.arr []) ]

/-- The C2 concrete dashboard: anchor row plus the stale id-300 panel. -/
def dashC2 : List PanelR := [txAnchorRow, staleTxPanel]

/-- An id-300 panel whose rectangle is not the standard one: h 4, w 12,
x 3, y 5. -/
def oddRectTxPanel : PanelR :=
  [ ("id", Json.num 300), ("type", Json.str "timeseries"),
    ("gridPos", Json.obj
      [("h", Json.num 4), ("w", Json.num 12), ("x", Json.num 3), ("y", Json.num 5)]) ]

/-- The C6 counterexample dashboard. -/
def dashC6 : List PanelR := [txAnchorRow, oddRectTxPanel]

/-- A Database anchor row that itself carries id 200, one of the ids the
generated block reuses.  Its ids are unique before insertion. -/
def dupIdRow : PanelR :=
  [ ("id", Json.num 200), ("type", Json.str "row"), ("title", Json.str "Database"),
    ("gridPos", Json.obj [("y", Json.num 10)]) ]

/-- The C5 counterexample dashboard. -/
def dashC5 : List PanelR := [dupIdRow]

theorem getElem?_some_lt {α : Type} {l : List α} {i : Nat} {a : α}
    (h : l[i]? = some a) : i < l.length :=
  (List.getElem?_eq_some.mp h).1

theorem getKey_setKey_same (kvs : PanelR) (k : String) (v : Json) :
    getKey (setKey kvs k v) k = some v := by
  induction kvs with
  | nil => simp [setKey, getKey]
  | cons kv rest ih =>
    by_cases hk : kv.1 == k
    · simp [setKey, hk, getKey]
    · simp [setKey, hk, getKey, ih]

theorem getKey_setKey_ne (kvs : PanelR) (k k2 : String) (v : Json)
    (h : k2 ≠ k) : getKey (setKey kvs k v) k2 = getKey kvs k2 := by
  induction kvs with
  | nil =>
    simp only [setKey, getKey]
    have : ¬ (k == k2) := by simpa using fun e => h e.symm
    simp [this]
  | cons kv rest ih =>
    by_cases hk : kv.1 == k
    · have hkk : kv.1 = k := by simpa using hk
      have h1 : ¬ (k == k2) := by simpa using fun e => h e.symm
      simp [setKey, hk, getKey, h1, hkk]
    · simp [setKey, hk, getKey, ih]

theorem findFirst_none_iff {α : Type} (p : α → Bool) (l : List α) :
    findFirst p l = none ↔ ∀ x ∈ l, p x = false := by
  induction l with
  | nil => simp [findFirst]
  | cons x xs ih =>
    cases hx : p x with
    | true => simp [findFirst, hx]
    | false => simp [findFirst, hx, ih]

theorem findFirst_some {α : Type} {p : α → Bool} {l : List α} {i : Nat}
    (h : findFirst p l = some i) : ∃ a, l[i]? = some a ∧ p a = true := by
  induction l generalizing i with
  | nil => simp [findFirst] at h
  | cons x xs ih =>
    cases hx : p x with
    | true =>
      simp [findFirst, hx] at h
      exact ⟨x, by simp [← h], hx⟩
    | false =>
      simp only [findFirst, hx, Bool.false_eq_true, if_false,
        Option.map_eq_some'] at h
      obtain ⟨j, hj, hij⟩ := h
      obtain ⟨a, ha, hpa⟩ := ih hj
      exact ⟨a, by simp [← hij, ha], hpa⟩

theorem findFirst_earlier {α : Type} {p : α → Bool} {l : List α} {i : Nat}
    (h : findFirst p l = some i) :
    ∀ j b, j < i → l[j]? = some b → p b = false := by
  induction l generalizing i with
  | nil => simp [findFirst] at h
  | cons x xs ih =>
    cases hx : p x with
    | true =>
      simp [findFirst, hx] at h
      intro j b hj
      omega
    | false =>
      simp only [findFirst, hx, Bool.false_eq_true, if_false,
        Option.map_eq_some'] at h
      obtain ⟨j0, hj0, hij⟩ := h
      intro j b hj hb
      cases j with
      | zero =>
        simp at hb
        rw [← hb]; exact hx
      | succ k =>
        simp at hb
        exact ih hj0 k b (by omega) hb

theorem findFirst_of_spec {α : Type} {p : α → Bool} {l : List α} {i : Nat} {a : α}
    (ha : l[i]? = some a) (hp : p a = true)
    (hmin : ∀ j b, j < i → l[j]? = some b → p b = false) :
    findFirst p l = some i := by
  induction l generalizing i with
  | nil => simp at ha
  | cons x xs ih =>
    cases i with
    | zero =>
      simp at ha
      have hpx : p x = true := by rw [ha]; exact hp
      simp [findFirst, hpx, ← ha]
    | succ k =>
      have hx : p x = false := hmin 0 x (Nat.succ_pos k) (by simp)
      simp at ha
      have : findFirst p xs = some k :=
        ih ha (fun j b hj hb => hmin (j + 1) b (by omega) (by simp [hb]))
      simp [findFirst, hx, this]

theorem findFirst_lt_length {α : Type} {p : α → Bool} {l : List α} {i : Nat}
    (h : findFirst p l = some i) : i < l.length := by
  obtain ⟨a, ha, _⟩ := findFirst_some h
  exact getElem?_some_lt ha

theorem mapOpt_length {α : Type} {f : α → Option α} :
    ∀ {l l' : List α}, mapOpt f l = some l' → l'.length = l.length := by
  intro l
  induction l with
  | nil => intro l' h; simp [mapOpt] at h; simp [← h]
  | cons x xs ih =>
    intro l' h
    simp only [mapOpt] at h
    cases hfx : f x with
    | none => rw [hfx] at h; simp at h
    | some y =>
      cases hrest : mapOpt f xs with
      | none => rw [hfx, hrest] at h; simp at h
      | some ys =>
        rw [hfx, hrest] at h
        simp at h
        simp [← h, ih hrest]

theorem mapOpt_get {α : Type} {f : α → Option α} :
    ∀ {l l' : List α}, mapOpt f l = some l' →
      ∀ (j : Nat) (p : α), l[j]? = some p → ∃ q, l'[j]? = some q ∧ f p = some q := by
  intro l
  induction l with
  | nil => intro l' h j p hp; simp at hp
  | cons x xs ih =>
    intro l' h j p hp
    simp only [mapOpt] at h
    cases hfx : f x with
    | none => rw [hfx] at h; simp at h
    | some y =>
      cases hrest : mapOpt f xs with
      | none => rw [hfx, hrest] at h; simp at h
      | some ys =>
        rw [hfx, hrest] at h
        simp at h
        cases j with
        | zero =>
          simp at hp
          exact ⟨y, by simp [← h], by rw [← hp]; exact hfx⟩
        | succ k =>
          simp at hp
          obtain ⟨q, hq, hfq⟩ := ih hrest k p hp
          exact ⟨q, by simp [← h, hq], hfq⟩

theorem mapOpt_id_of_all {α : Type} (f : α → Option α) :
    ∀ (l : List α), (∀ p ∈ l, f p = some p) → mapOpt f l = some l := by
  intro l
  induction l with
  | nil => intro _; rfl
  | cons x xs ih =>
    intro h
    have hx : f x = some x := h x (by simp)
    have hxs : mapOpt f xs = some xs := ih (fun p hp => h p (by simp [hp]))
    simp [mapOpt, hx, hxs]

theorem mapOpt_filterMap_eq {α β : Type} {f : α → Option α} (g : α → Option β)
    (hg : ∀ p q, f p = some q → g q = g p) :
    ∀ {l l' : List α}, mapOpt f l = some l' → l'.filterMap g = l.filterMap g := by
  intro l
  induction l with
  | nil => intro l' h; simp [mapOpt] at h; simp [← h]
  | cons x xs ih =>
    intro l' h
    simp only [mapOpt] at h
    cases hfx : f x with
    | none => rw [hfx] at h; simp at h
    | some y =>
      cases hrest : mapOpt f xs with
      | none => rw [hfx, hrest] at h; simp at h
      | some ys =>
        rw [hfx, hrest] at h
        simp at h
        rw [← h]
        simp only [List.filterMap_cons, hg x y hfx, ih hrest]

theorem set_self_of_getElem? {α : Type} :
    ∀ (l : List α) (i : Nat) (a : α), l[i]? = some a → l.set i a = l := by
  intro l
  induction l with
  | nil => intro i a h; simp at h
  | cons x xs ih =>
    intro i a h
    cases i with
    | zero => simp at h; simp [List.set, h]
    | succ k => simp at h; simp [List.set, ih k a h]

theorem filterMap_set_eq {α β : Type} (g : α → Option β) :
    ∀ (l : List α) (i : Nat) (p q : α), l[i]? = some p → g q = g p →
      (l.set i q).filterMap g = l.filterMap g := by
  intro l
  induction l with
  | nil => intro i p q h _; simp at h
  | cons x xs ih =>
    intro i p q h hg
    cases i with
    | zero =>
      simp at h
      simp [List.set, List.filterMap_cons, h ▸ hg]
    | succ k =>
      simp at h
      simp [List.set, List.filterMap_cons, ih k p q h hg]

theorem getElem?_append_boundary {α : Type} (A : List α) (b : α) (C : List α) :
    (A ++ b :: C)[A.length]? = some b := by
  induction A with
  | nil => simp
  | cons a A ih => simpa using ih

theorem getElem?_append_left {α : Type} {A B : List α} {j : Nat}
    (h : j < A.length) : (A ++ B)[j]? = A[j]? := by
  rw [List.getElem?_append_left h]

theorem getElem?_take_lt {α : Type} {l : List α} {j n : Nat}
    (h : j < n) : (l.take n)[j]? = l[j]? := by
  simp [List.getElem?_take, h]

theorem bumpTxPanel_skip (ny : Int) (p : PanelR)
    (h : getKey p "gridPos" = none) : bumpTxPanel ny p = some p := by
  simp [bumpTxPanel, h]

theorem bumpDbPanel_skip (off : Int) (p : PanelR)
    (h : getKey p "gridPos" = none) : bumpDbPanel off p = some p := by
  simp [bumpDbPanel, h]

theorem bumpTxPanel_getKey_ne {ny : Int} {p q : PanelR}
    (h : bumpTxPanel ny p = some q) (k : String) (hk : k ≠ "gridPos") :
    getKey q k = getKey p k := by
  unfold bumpTxPanel at h
  cases hgp : getKey p "gridPos" with
  | none => rw [hgp] at h; simp at h; rw [← h]
  | some g =>
    rw [hgp] at h
    cases g with
    | obj kvs =>
      dsimp only at h
      cases hy : getKey kvs "y" with
      | none => rw [hy] at h; simp at h
      | some yv =>
        rw [hy] at h
        cases yv with
        | num n =>
          by_cases hge : n ≥ ny
          · simp [hge] at h
            rw [← h, getKey_setKey_ne _ _ _ _ hk]
          · simp [hge] at h
            rw [← h]
        | null => simp at h
        | bool b => simp at h
        | str s => simp at h
        | arr a => simp at h
        | obj o => simp at h
    | null => simp at h
    | bool b => simp at h
    | num n => simp at h
    | str s => simp at h
    | arr a => simp at h

theorem bumpDbPanel_getKey_ne {off : Int} {p q : PanelR}
    (h : bumpDbPanel off p = some q) (k : String) (hk : k ≠ "gridPos") :
    getKey q k = getKey p k := by
  unfold bumpDbPanel at h
  cases hgp : getKey p "gridPos" with
  | none => rw [hgp] at h; simp at h; rw [← h]
  | some g =>
    rw [hgp] at h
    cases g with
    | obj kvs =>
      dsimp only at h
      cases hy : getKey kvs "y" with
      | none => rw [hy] at h; simp at h
      | some yv =>
        rw [hy] at h
        cases yv with
        | num n =>
          simp at h
          rw [← h, getKey_setKey_ne _ _ _ _ hk]
        | null => simp at h
        | bool b => simp at h
        | str s => simp at h
        | arr a => simp at h
        | obj o => simp at h
    | null => simp at h
    | bool b => simp at h
    | num n => simp at h
    | str s => simp at h
    | arr a => simp at h

theorem bumpTxPanel_idOf {ny : Int} {p q : PanelR}
    (h : bumpTxPanel ny p = some q) : idOf q = idOf p := by
  unfold idOf
  rw [bumpTxPanel_getKey_ne h "id" (by decide)]

theorem bumpDbPanel_idOf {off : Int} {p q : PanelR}
    (h : bumpDbPanel off p = some q) : idOf q = idOf p := by
  unfold idOf
  rw [bumpDbPanel_getKey_ne h "id" (by decide)]

theorem bumpTxPanel_hasId {ny : Int} {n : Int} {p q : PanelR}
    (h : bumpTxPanel ny p = some q) : hasId n q = hasId n p := by
  unfold hasId
  rw [bumpTxPanel_getKey_ne h "id" (by decide)]

theorem hasId_of_idOf {n : Int} {p : PanelR} (h : idOf p = some n) :
    hasId n p = true := by
  unfold idOf at h
  unfold hasId
  cases hid : getKey p "id" with
  | none => rw [hid] at h; simp at h
  | some v =>
    rw [hid] at h
    cases v with
    | num m => simp at h; simp [h]
    | null => simp at h
    | bool b => simp at h
    | str s => simp at h
    | arr a => simp at h
    | obj o => simp at h

theorem idOf_of_hasId {n : Int} {p : PanelR} (h : hasId n p = true) :
    idOf p = some n := by
  unfold hasId at h
  unfold idOf
  cases hid : getKey p "id" with
  | none => rw [hid] at h; simp at h
  | some v =>
    rw [hid] at h
    cases v with
    | num m => simp at h; simp [h]
    | null => simp at h
    | bool b => simp at h
    | str s => simp at h
    | arr a => simp at h
    | obj o => simp at h

theorem create_tx_gridPos (y : Json) :
    getKey (create_tx_creation_panel 300 0 y 24 8) "gridPos" =
      some (Json.obj
        [("h", Json.num 8), ("w", Json.num 24), ("x", Json.num 0), ("y", y)]) := by
  rfl

theorem create_tx_hasId (y : Json) :
    hasId 300 (create_tx_creation_panel 300 0 y 24 8) = true := by
  rfl

theorem create_tx_idOf (y : Json) :
    idOf (create_tx_creation_panel 300 0 y 24 8) = some 300 := by
  rfl

theorem getKey_txRect (y : Json) :
    getKey [("h", Json.num 8), ("w", Json.num 24), ("x", Json.num 0), ("y", y)] "y" =
      some y := by
  rfl

theorem txMain_update_branch {panels : List PanelR} {r i : Nat} {p : PanelR}
    {g : List (String × Json)} {y : Json}
    (hr : findRowIdx "Database Transactions" panels = some r)
    (hi : findFirst (hasId 300) panels = some i)
    (hp : panels[i]? = some p)
    (hg : getKey p "gridPos" = some (Json.obj g))
    (hy : getKey g "y" = some y) :
    add_tx_creation_panel_main panels =
      Except.ok (panels.set i (create_tx_creation_panel 300 0 y 24 8)) := by
  have hany : panels.any (hasId 300) = true := by
    obtain ⟨a, ha, hpa⟩ := findFirst_some hi
    exact List.any_eq_true.mpr ⟨a, List.getElem?_mem ha, hpa⟩
  unfold add_tx_creation_panel_main
  rw [hr]
  dsimp only
  rw [hany]
  simp only [if_true]
  rw [hi]
  dsimp only
  rw [hp]
  dsimp only
  rw [hg]
  dsimp only
  rw [hy]

theorem txMain_insert_branch {panels : List PanelR} {r : Nat} {rowp : PanelR}
    {g : List (String × Json)} {row_y : Int} {shifted : List PanelR}
    (hr : findRowIdx "Database Transactions" panels = some r)
    (hany : panels.any (hasId 300) = false)
    (hrow : panels[r]? = some rowp)
    (hg : getKey rowp "gridPos" = some (Json.obj g))
    (hy : getKey g "y" = some (Json.num row_y))
    (hshift : mapOpt (bumpTxPanel (row_y + 1)) (panels.drop (r + 1)) = some shifted) :
    add_tx_creation_panel_main panels = Except.ok
      (panels.take (r + 1) ++
        create_tx_creation_panel 300 0 (Json.num (row_y + 1)) 24 8 :: shifted) := by
  unfold add_tx_creation_panel_main
  rw [hr]
  dsimp only
  rw [hany]
  simp only [Bool.false_eq_true, if_false]
  rw [hrow]
  dsimp only
  rw [hg]
  dsimp only
  rw [hy]
  dsimp only
  rw [hshift]

theorem txMain_ok_first300 {panels out : List PanelR}
    (h : add_tx_creation_panel_main panels = Except.ok out) :
    ∃ i y, findFirst (hasId 300) out = some i ∧
      out[i]? = some (create_tx_creation_panel 300 0 y 24 8) := by
  unfold add_tx_creation_panel_main at h
  cases hr : findRowIdx "Database Transactions" panels with
  | none => rw [hr] at h; cases h
  | some r =>
    rw [hr] at h
    dsimp only at h
    cases hany : panels.any (hasId 300) with
    | true =>
      rw [hany] at h
      simp only [if_true] at h
      cases hi : findFirst (hasId 300) panels with
      | none => rw [hi] at h; cases h
      | some i =>
        rw [hi] at h
        dsimp only at h
        cases hp : panels[i]? with
        | none => rw [hp] at h; cases h
        | some p =>
          rw [hp] at h
          dsimp only at h
          cases hgp : getKey p "gridPos" with
          | none => rw [hgp] at h; cases h
          | some g =>
            rw [hgp] at h
            cases g with
            | obj kvs =>
              dsimp only at h
              cases hy : getKey kvs "y" with
              | none => rw [hy] at h; cases h
              | some y =>
                rw [hy] at h
                dsimp only at h
                have hout : out = panels.set i (create_tx_creation_panel 300 0 y 24 8) :=
                  (Except.ok.inj h).symm
                have hlen : i < panels.length := findFirst_lt_length hi
                refine ⟨i, y, ?_, ?_⟩
                · apply findFirst_of_spec (a := create_tx_creation_panel 300 0 y 24 8)
                  · rw [hout]; exact List.getElem?_set_self hlen
                  · exact create_tx_hasId y
                  · intro j b hj hb
                    rw [hout, List.getElem?_set_ne (by omega)] at hb
                    exact findFirst_earlier hi j b hj hb
                · rw [hout]; exact List.getElem?_set_self hlen
            | null => simp at h
            | bool b => simp at h
            | num n => simp at h
            | str s => simp at h
            | arr a => simp at h
    | false =>
      rw [hany] at h
      simp only [Bool.false_eq_true, if_false] at h
      cases hrow : panels[r]? with
      | none => rw [hrow] at h; cases h
      | some rowp =>
        rw [hrow] at h
        dsimp only at h
        cases hgp : getKey rowp "gridPos" with
        | none => rw [hgp] at h; cases h
        | some g =>
          rw [hgp] at h
          cases g with
          | obj kvs =>
            dsimp only at h
            cases hy : getKey kvs "y" with
            | none => rw [hy] at h; cases h
            | some yv =>
              rw [hy] at h
              cases yv with
              | num row_y =>
                dsimp only at h
                cases hshift : mapOpt (bumpTxPanel (row_y + 1)) (panels.drop (r + 1)) with
                | none => rw [hshift] at h; cases h
                | some shifted =>
                  rw [hshift] at h
                  have hout : out = panels.take (r + 1) ++
                      create_tx_creation_panel 300 0 (Json.num (row_y + 1)) 24 8 :: shifted :=
                    (Except.ok.inj h).symm
                  have hrlen : r < panels.length := by
                    unfold findRowIdx at hr
                    exact findFirst_lt_length hr
                  have htlen : (panels.take (r + 1)).length = r + 1 := by
                    rw [List.length_take]
                    omega
                  have hbound : (panels.take (r + 1) ++
                      create_tx_creation_panel 300 0 (Json.num (row_y + 1)) 24 8 ::
                        shifted)[r + 1]? =
                      some (create_tx_creation_panel 300 0 (Json.num (row_y + 1)) 24 8) := by
                    have hb := getElem?_append_boundary (panels.take (r + 1))
                      (create_tx_creation_panel 300 0 (Json.num (row_y + 1)) 24 8) shifted
                    rwa [htlen] at hb
                  refine ⟨r + 1, Json.num (row_y + 1), ?_, ?_⟩
                  · apply findFirst_of_spec
                      (a := create_tx_creation_panel 300 0 (Json.num (row_y + 1)) 24 8)
                    · rw [hout]; exact hbound
                    · exact create_tx_hasId _
                    · intro j b hj hb
                      rw [hout] at hb
                      rw [getElem?_append_left (by omega : j < (panels.take (r + 1)).length)] at hb
                      rw [getElem?_take_lt (by omega : j < r + 1)] at hb
                      have hmem : b ∈ panels := List.getElem?_mem hb
                      have := List.any_eq_false.mp hany b hmem
                      simpa using this
                  · rw [hout]; exact hbound
              | null => simp at h
              | bool b => simp at h
              | str s => simp at h
              | arr a => simp at h
              | obj o => simp at h
          | null => simp at h
          | bool b => simp at h
          | num n => simp at h
          | str s => simp at h
          | arr a => simp at h

theorem txMain_ok_stable {panels out : List PanelR}
    (h : add_tx_creation_panel_main panels = Except.ok out) :
    txRunFile out = out := by
  obtain ⟨i, y, hfind, hget⟩ := txMain_ok_first300 h
  unfold txRunFile
  cases hr2 : findRowIdx "Database Transactions" out with
  | none =>
    unfold add_tx_creation_panel_main
    rw [hr2]
  | some r2 =>
    have hrun : add_tx_creation_panel_main out =
        Except.ok (out.set i (create_tx_creation_panel 300 0 y 24 8)) :=
      txMain_update_branch hr2 hfind hget (create_tx_gridPos y) (getKey_txRect y)
    rw [hrun]
    exact set_self_of_getElem? out i _ hget

theorem generate_db_panels_ids : panelIdNums generate_db_panels =
    [200, 201, 202, 203, 204, 205, 206, 207, 208, 209, 210, 211,
     212, 213, 214, 215, 216, 217, 218, 219, 220, 221, 222] := by
  rfl

theorem dbMain_ok_cases {panels out : List PanelR}
    (h : add_db_panels_main panels = Except.ok out) :
    ∃ (r : Nat) (shifted : List PanelR),
      findRowIdx "Database" panels = some r ∧
      mapOpt (bumpDbPanel 40) (panels.drop (sectionEnd panels (r + 1))) = some shifted ∧
      out = panels.take (sectionEnd panels (r + 1)) ++ generate_db_panels ++ shifted := by
  unfold add_db_panels_main at h
  cases hr : findRowIdx "Database" panels with
  | none => rw [hr] at h; cases h
  | some r =>
    rw [hr] at h
    dsimp only at h
    cases hshift : mapOpt (bumpDbPanel 40) (panels.drop (sectionEnd panels (r + 1))) with
    | none => rw [hshift] at h; cases h
    | some shifted =>
      rw [hshift] at h
      exact ⟨r, shifted, rfl, hshift, (Except.ok.inj h).symm⟩

theorem txMain_ok_cases {panels out : List PanelR}
    (h : add_tx_creation_panel_main panels = Except.ok out) :
    (∃ (i : Nat) (p : PanelR) (y : Json),
      panels[i]? = some p ∧ idOf p = some 300 ∧
      out = panels.set i (create_tx_creation_panel 300 0 y 24 8)) ∨
    (∃ (r : Nat) (row_y : Int) (shifted : List PanelR),
      panels.any (hasId 300) = false ∧
      mapOpt (bumpTxPanel (row_y + 1)) (panels.drop (r + 1)) = some shifted ∧
      out = panels.take (r + 1) ++
        create_tx_creation_panel 300 0 (Json.num (row_y + 1)) 24 8 :: shifted) := by
  unfold add_tx_creation_panel_main at h
  cases hr : findRowIdx "Database Transactions" panels with
  | none => rw [hr] at h; cases h
  | some r =>
    rw [hr] at h
    dsimp only at h
    cases hany : panels.any (hasId 300) with
    | true =>
      rw [hany] at h
      simp only [if_true] at h
      cases hi : findFirst (hasId 300) panels with
      | none => rw [hi] at h; cases h
      | some i =>
        rw [hi] at h
        dsimp only at h
        cases hp : panels[i]? with
        | none => rw [hp] at h; cases h
        | some p =>
          rw [hp] at h
          dsimp only at h
          cases hgp : getKey p "gridPos" with
          | none => rw [hgp] at h; cases h
          | some g =>
            rw [hgp] at h
            cases g with
            | obj kvs =>
              dsimp only at h
              cases hy : getKey kvs "y" with
              | none => rw [hy] at h; cases h
              | some y =>
                rw [hy] at h
                dsimp only at h
                have hid : idOf p = some 300 := by
                  obtain ⟨a, ha, hpa⟩ := findFirst_some hi
                  rw [hp] at ha
                  cases ha
                  exact idOf_of_hasId hpa
                exact Or.inl ⟨i, p, y, hp, hid, (Except.ok.inj h).symm⟩
            | null => simp at h
            | bool b => simp at h
            | num n => simp at h
            | str s => simp at h
            | arr a => simp at h
    | false =>
      rw [hany] at h
      simp only [Bool.false_eq_true, if_false] at h
      cases hrow : panels[r]? with
      | none => rw [hrow] at h; cases h
      | some rowp =>
        rw [hrow] at h
        dsimp only at h
        cases hgp : getKey rowp "gridPos" with
        | none => rw [hgp] at h; cases h
        | some g =>
          rw [hgp] at h
          cases g with
          | obj kvs =>
            dsimp only at h
            cases hy : getKey kvs "y" with
            | none => rw [hy] at h; cases h
            | some yv =>
              rw [hy] at h
              cases yv with
              | num row_y =>
                dsimp only at h
                cases hshift : mapOpt (bumpTxPanel (row_y + 1)) (panels.drop (r + 1)) with
                | none => rw [hshift] at h; cases h
                | some shifted =>
                  rw [hshift] at h
                  exact Or.inr ⟨r, row_y, shifted, rfl, hshift, (Except.ok.inj h).symm⟩
              | null => simp at h
              | bool b => simp at h
              | str s => simp at h
              | arr a => simp at h
              | obj o => simp at h
          | null => simp at h
          | bool b => simp at h
          | num n => simp at h
          | str s => simp at h
          | arr a => simp at h

theorem not_mem_ids_of_any_false {panels : List PanelR}
    (hany : panels.any (hasId 300) = false) : (300 : Int) ∉ panelIdNums panels := by
  intro hmem
  obtain ⟨p, hp, hid⟩ := List.mem_filterMap.mp hmem
  exact absurd (hasId_of_idOf hid) (List.any_eq_false.mp hany p hp)

/-- Claim C2: running the singleton-panel update script twice in a row on
any dashboard yields a persisted dashboard identical to running it once
(in particular on any dashboard containing a Database Transactions row);
and on the concrete dashboard that already contains the reserved id 300 at
y = 5, a rerun produces exactly one id-300 panel, still at y = 5, with
freshly constructed content and the panel count unchanged. -/
theorem c2_singleton_update_idempotent :
    (∀ panels : List PanelR, txRunFile (txRunFile panels) = txRunFile panels) ∧
    txRunFile dashC2 = [txAnchorRow, create_tx_creation_panel 300 0 (Json.num 5) 24 8] ∧
    (txRunFile dashC2).countP (hasId 300) = 1 ∧
    ((txRunFile dashC2)[1]?).bind (gridField "y") = some 5 ∧
    (txRunFile dashC2).length = dashC2.length := by
  refine ⟨?_, rfl, rfl, rfl, rfl⟩
  intro panels
  cases hrun : add_tx_creation_panel_main panels with
  | error e =>
    have hid : txRunFile panels = panels := by unfold txRunFile; rw [hrun]
    rw [hid]
    exact hid
  | ok out =>
    have h1 : txRunFile panels = out := by unfold txRunFile; rw [hrun]
    rw [h1, txMain_ok_stable hrun]

/-- Claim C3: on a dashboard with no row panel carrying the required
anchor title, each script prints its diagnostic and exits with status 1
(the `anchorMissing` outcome) before any write, leaving the persisted
document unmodified. -/
theorem c3_anchor_missing_aborts :
    (∀ panels : List PanelR,
      (∀ p ∈ panels, isRowTitled "Database" p = false) →
      add_db_panels_main panels = Except.error ScriptErr.anchorMissing ∧
      dbRunFile panels = panels) ∧
    (∀ panels : List PanelR,
      (∀ p ∈ panels, isRowTitled "Database Transactions" p = false) →
      add_tx_creation_panel_main panels = Except.error ScriptErr.anchorMissing ∧
      txRunFile panels = panels) := by
  constructor
  · intro panels h
    have hf : findRowIdx "Database" panels = none := (findFirst_none_iff _ _).mpr h
    have hm : add_db_panels_main panels = Except.error ScriptErr.anchorMissing := by
      unfold add_db_panels_main
      rw [hf]
    exact ⟨hm, by unfold dbRunFile; rw [hm]⟩
  · intro panels h
    have hf : findRowIdx "Database Transactions" panels = none :=
      (findFirst_none_iff _ _).mpr h
    have hm : add_tx_creation_panel_main panels = Except.error ScriptErr.anchorMissing := by
      unfold add_tx_creation_panel_main
      rw [hf]
    exact ⟨hm, by unfold txRunFile; rw [hm]⟩

/-- Witness for C3 at a one-panel dashboard with no row panel at all. -/
theorem c3_anchor_missing_aborts_witness :
    (add_db_panels_main [[("type", Json.str "stat")]] =
      Except.error ScriptErr.anchorMissing ∧
     dbRunFile [[("type", Json.str "stat")]] = [[("type", Json.str "stat")]]) ∧
    (add_tx_creation_panel_main [[("type", Json.str "stat")]] =
      Except.error ScriptErr.anchorMissing ∧
     txRunFile [[("type", Json.str "stat")]] = [[("type", Json.str "stat")]]) :=
  ⟨c3_anchor_missing_aborts.1 [[("type", Json.str "stat")]] (by decide),
   c3_anchor_missing_aborts.2 [[("type", Json.str "stat")]] (by decide)⟩

theorem sectionEndFrom_spec (l : List PanelR) :
    ∀ j : Nat, sectionEndFrom l j =
      match findFirst isRowType l with
      | some k => j + k
      | none => j + l.length := by
  induction l with
  | nil => intro j; simp [sectionEndFrom, findFirst]
  | cons p rest ih =>
    intro j
    cases hp : isRowType p with
    | true => simp [sectionEndFrom, findFirst, hp]
    | false =>
      simp only [sectionEndFrom, findFirst, hp, Bool.false_eq_true, if_false]
      rw [ih (j + 1)]
      cases hf : findFirst isRowType rest with
      | none =>
        simp only [hf, Option.map_none', List.length_cons]
        ring
      | some k =>
        simp only [hf, Option.map_some']
        ring

/-- Claim C7: given the anchor (first row panel with the target title) at
index `i`, the insertion index computed by the section-end scan is the
index of the next row panel strictly after `i`, or the length of the panel
sequence when no further row panel exists. -/
theorem c7_insertion_index {target : String} {panels : List PanelR} {i : Nat}
    (h : findRowIdx target panels = some i) :
    sectionEnd panels (i + 1) = insertionIndexSpec panels i := by
  have hlen : i < panels.length := findFirst_lt_length h
  unfold sectionEnd insertionIndexSpec
  rw [sectionEndFrom_spec]
  cases hf : findFirst isRowType (panels.drop (i + 1)) with
  | some k => rfl
  | none =>
    dsimp only
    rw [List.length_drop]
    exact Nat.add_sub_cancel' hlen

/-- Witness for C7 on the two-row dashboard: anchor at index 0, next row
at index 1, and on the anchor-only section dashboard where the scan runs
to the end of the sequence. -/
theorem c7_insertion_index_witness :
    (findRowIdx "Database" dashC1 = some 0 ∧
     sectionEnd dashC1 (0 + 1) = insertionIndexSpec dashC1 0) ∧
    (findRowIdx "Database" dashC4 = some 0 ∧
     sectionEnd dashC4 (0 + 1) = insertionIndexSpec dashC4 0) :=
  ⟨⟨rfl, @c7_insertion_index "Database" dashC1 0 rfl⟩,
   ⟨rfl, @c7_insertion_index "Database" dashC4 0 rfl⟩⟩

/-- Claim C8: in the offset-shift step of either script a panel with no
gridPos key is skipped and returned untouched (never a failure), panels
without gridPos come out of a successful shift exactly as they went in,
and a suffix consisting only of such panels always shifts successfully. -/
theorem c8_shift_skips_missing_gridpos :
    (∀ (off : Int) (p : PanelR), getKey p "gridPos" = none →
      bumpDbPanel off p = some p) ∧
    (∀ (ny : Int) (p : PanelR), getKey p "gridPos" = none →
      bumpTxPanel ny p = some p) ∧
    (∀ (off : Int) (l out : List PanelR), mapOpt (bumpDbPanel off) l = some out →
      ∀ (j : Nat) (p : PanelR), l[j]? = some p → getKey p "gridPos" = none →
        out[j]? = some p) ∧
    (∀ (ny : Int) (l out : List PanelR), mapOpt (bumpTxPanel ny) l = some out →
      ∀ (j : Nat) (p : PanelR), l[j]? = some p → getKey p "gridPos" = none →
        out[j]? = some p) ∧
    (∀ (off : Int) (l : List PanelR), (∀ p ∈ l, getKey p "gridPos" = none) →
      mapOpt (bumpDbPanel off) l = some l) ∧
    (∀ (ny : Int) (l : List PanelR), (∀ p ∈ l, getKey p "gridPos" = none) →
      mapOpt (bumpTxPanel ny) l = some l) := by
  refine ⟨bumpDbPanel_skip, bumpTxPanel_skip, ?_, ?_, ?_, ?_⟩
  · intro off l out hm j p hj hg
    obtain ⟨q, hq, hfq⟩ := mapOpt_get hm j p hj
    rw [bumpDbPanel_skip off p hg] at hfq
    injection hfq with e
    rw [← e] at hq
    exact hq
  · intro ny l out hm j p hj hg
    obtain ⟨q, hq, hfq⟩ := mapOpt_get hm j p hj
    rw [bumpTxPanel_skip ny p hg] at hfq
    injection hfq with e
    rw [← e] at hq
    exact hq
  · intro off l hall
    exact mapOpt_id_of_all _ l (fun p hp => bumpDbPanel_skip off p (hall p hp))
  · intro ny l hall
    exact mapOpt_id_of_all _ l (fun p hp => bumpTxPanel_skip ny p (hall p hp))

/-- Witness for C8 at a concrete panel without a gridPos key. -/
theorem c8_shift_skips_missing_gridpos_witness :
    bumpDbPanel 40 [("type", Json.str "stat")] = some [("type", Json.str "stat")] ∧
    bumpTxPanel 6 [("type", Json.str "stat")] = some [("type", Json.str "stat")] ∧
    mapOpt (bumpDbPanel 40) [[("type", Json.str "stat")]] =
      some [[("type", Json.str "stat")]] ∧
    mapOpt (bumpTxPanel 6) [[("type", Json.str "stat")]] =
      some [[("type", Json.str "stat")]] :=
  ⟨c8_shift_skips_missing_gridpos.1 40 [("type", Json.str "stat")] (by rfl),
   c8_shift_skips_missing_gridpos.2.1 6 [("type", Json.str "stat")] (by rfl),
   c8_shift_skips_missing_gridpos.2.2.2.2.1 40 [[("type", Json.str "stat")]]
     (by intro p hp; simp at hp; rw [hp]; rfl),
   c8_shift_skips_missing_gridpos.2.2.2.2.2 6 [[("type", Json.str "stat")]]
     (by intro p hp; simp at hp; rw [hp]; rfl)⟩

/-- Claim C9: each panel factory is a pure function of its arguments:
called twice with the same arguments it returns identical records, it
takes no dashboard state, and the record is fully formed (id, kind tag,
title and layout rectangle are all present with the given values). -/
theorem c9_factories_deterministic :
    (∀ (t t2 : String) (y y2 i i2 : Int), t = t2 → y = y2 → i = i2 →
      create_row_panel t y i = create_row_panel t2 y2 i2) ∧
    (∀ (t e lf : String) (x y w h pid : Int) (d u : String)
       (t2 e2 lf2 : String) (x2 y2 w2 h2 pid2 : Int) (d2 u2 : String),
      t = t2 → e = e2 → lf = lf2 → x = x2 → y = y2 → w = w2 → h = h2 →
      pid = pid2 → d = d2 → u = u2 →
      create_timeseries_panel t e lf x y w h pid d u =
        create_timeseries_panel t2 e2 lf2 x2 y2 w2 h2 pid2 d2 u2) ∧
    (∀ (t e : String) (x y w h pid : Int) (d u cm : String)
       (t2 e2 : String) (x2 y2 w2 h2 pid2 : Int) (d2 u2 cm2 : String),
      t = t2 → e = e2 → x = x2 → y = y2 → w = w2 → h = h2 →
      pid = pid2 → d = d2 → u = u2 → cm = cm2 →
      create_stat_panel t e x y w h pid d u cm =
        create_stat_panel t2 e2 x2 y2 w2 h2 pid2 d2 u2 cm2) ∧
    (∀ (t e : String) (x y w h pid : Int) (d : String) (mv : Int)
       (t2 e2 : String) (x2 y2 w2 h2 pid2 : Int) (d2 : String) (mv2 : Int),
      t = t2 → e = e2 → x = x2 → y = y2 → w = w2 → h = h2 →
      pid = pid2 → d = d2 → mv = mv2 →
      create_gauge_panel t e x y w h pid d mv =
        create_gauge_panel t2 e2 x2 y2 w2 h2 pid2 d2 mv2) ∧
    (∀ (pid x : Int) (y : Json) (w h : Int) (pid2 x2 : Int) (y2 : Json) (w2 h2 : Int),
      pid = pid2 → x = x2 → y = y2 → w = w2 → h = h2 →
      create_tx_creation_panel pid x y w h =
        create_tx_creation_panel pid2 x2 y2 w2 h2) ∧
    (∀ (t : String) (y i : Int),
      getKey (create_row_panel t y i) "id" = some (Json.num i) ∧
      getKey (create_row_panel t y i) "type" = some (Json.str "row") ∧
      getKey (create_row_panel t y i) "title" = some (Json.str t) ∧
      getKey (create_row_panel t y i) "gridPos" = some (Json.obj
        [("h", Json.num 1), ("w", Json.num 24), ("x", Json.num 0), ("y", Json.num y)])) ∧
    (∀ (t e lf : String) (x y w h pid : Int) (d u : String),
      getKey (create_timeseries_panel t e lf x y w h pid d u) "id" = some (Json.num pid) ∧
      getKey (create_timeseries_panel t e lf x y w h pid d u) "type" =
        some (Json.str "timeseries") ∧
      getKey (create_timeseries_panel t e lf x y w h pid d u) "title" = some (Json.str t) ∧
      getKey (create_timeseries_panel t e lf x y w h pid d u) "gridPos" = some (Json.obj
        [("h", Json.num h), ("w", Json.num w), ("x", Json.num x), ("y", Json.num y)])) ∧
    (∀ (t e : String) (x y w h pid : Int) (d u cm : String),
      getKey (create_stat_panel t e x y w h pid d u cm) "id" = some (Json.num pid) ∧
      getKey (create_stat_panel t e x y w h pid d u cm) "type" = some (Json.str "stat") ∧
      getKey (create_stat_panel t e x y w h pid d u cm) "title" = some (Json.str t) ∧
      getKey (create_stat_panel t e x y w h pid d u cm) "gridPos" = some (Json.obj
        [("h", Json.num h), ("w", Json.num w), ("x", Json.num x), ("y", Json.num y)])) ∧
    (∀ (t e : String) (x y w h pid : Int) (d : String) (mv : Int),
      getKey (create_gauge_panel t e x y w h pid d mv) "id" = some (Json.num pid) ∧
      getKey (create_gauge_panel t e x y w h pid d mv) "type" = some (Json.str "gauge") ∧
      getKey (create_gauge_panel t e x y w h pid d mv) "title" = some (Json.str t) ∧
      getKey (create_gauge_panel t e x y w h pid d mv) "gridPos" = some (Json.obj
        [("h", Json.num h), ("w", Json.num w), ("x", Json.num x), ("y", Json.num y)])) ∧
    (∀ (pid x : Int) (y : Json) (w h : Int),
      getKey (create_tx_creation_panel pid x y w h) "id" = some (Json.num pid) ∧
      getKey (create_tx_creation_panel pid x y w h) "type" =
        some (Json.str "timeseries") ∧
      getKey (create_tx_creation_panel pid x y w h) "title" =
        some (Json.str "Transaction Creation") ∧
      getKey (create_tx_creation_panel pid x y w h) "gridPos" = some (Json.obj
        [("h", Json.num h), ("w", Json.num w), ("x", Json.num x), ("y", y)])) := by
  refine ⟨?_, ?_, ?_, ?_, ?_, ?_, ?_, ?_, ?_, ?_⟩
  · intro t t2 y y2 i i2 h1 h2 h3
    subst h1; subst h2; subst h3; rfl
  · intro t e lf x y w h pid d u t2 e2 lf2 x2 y2 w2 h2 pid2 d2 u2
      h1 h2 h3 h4 h5 h6 h7 h8 h9 h10
    subst h1; subst h2; subst h3; subst h4; subst h5
    subst h6; subst h7; subst h8; subst h9; subst h10; rfl
  · intro t e x y w h pid d u cm t2 e2 x2 y2 w2 h2 pid2 d2 u2 cm2
      h1 h2 h3 h4 h5 h6 h7 h8 h9 h10
    subst h1; subst h2; subst h3; subst h4; subst h5
    subst h6; subst h7; subst h8; subst h9; subst h10; rfl
  · intro t e x y w h pid d mv t2 e2 x2 y2 w2 h2 pid2 d2 mv2
      h1 h2 h3 h4 h5 h6 h7 h8 h9
    subst h1; subst h2; subst h3; subst h4; subst h5
    subst h6; subst h7; subst h8; subst h9; rfl
  · intro pid x y w h pid2 x2 y2 w2 h2 h1 h2e h3 h4 h5
    subst h1; subst h2e; subst h3; subst h4; subst h5; rfl
  · intro t y i
    exact {left := rfl, right := {left := rfl, right := {left := rfl, right := rfl}}}
  · intro t e lf x y w h pid d u
    exact {left := rfl, right := {left := rfl, right := {left := rfl, right := rfl}}}
  · intro t e x y w h pid d u cm
    exact {left := rfl, right := {left := rfl, right := {left := rfl, right := rfl}}}
  · intro t e x y w h pid d mv
    exact {left := rfl, right := {left := rfl, right := {left := rfl, right := rfl}}}
  · intro pid x y w h
    exact {left := rfl, right := {left := rfl, right := {left := rfl, right := rfl}}}

/-- Witness for C9 at concrete arguments. -/
theorem c9_factories_deterministic_witness :
    create_row_panel "Database" 10 1 = create_row_panel "Database" 10 1 ∧
    create_timeseries_panel "a" "b" "c" 0 1 2 3 4 "d" "e" =
      create_timeseries_panel "a" "b" "c" 0 1 2 3 4 "d" "e" ∧
    create_stat_panel "a" "b" 0 1 2 3 4 "d" "e" "f" =
      create_stat_panel "a" "b" 0 1 2 3 4 "d" "e" "f" ∧
    create_gauge_panel "a" "b" 0 1 2 3 4 "d" 100 =
      create_gauge_panel "a" "b" 0 1 2 3 4 "d" 100 ∧
    create_tx_creation_panel 300 0 (Json.num 5) 24 8 =
      create_tx_creation_panel 300 0 (Json.num 5) 24 8 :=
  ⟨c9_factories_deterministic.1 "Database" "Database" 10 10 1 1 rfl rfl rfl,
   c9_factories_deterministic.2.1 "a" "b" "c" 0 1 2 3 4 "d" "e"
     "a" "b" "c" 0 1 2 3 4 "d" "e" rfl rfl rfl rfl rfl rfl rfl rfl rfl rfl,
   c9_factories_deterministic.2.2.1 "a" "b" 0 1 2 3 4 "d" "e" "f"
     "a" "b" 0 1 2 3 4 "d" "e" "f" rfl rfl rfl rfl rfl rfl rfl rfl rfl rfl,
   c9_factories_deterministic.2.2.2.1 "a" "b" 0 1 2 3 4 "d" 100
     "a" "b" 0 1 2 3 4 "d" 100 rfl rfl rfl rfl rfl rfl rfl rfl rfl,
   c9_factories_deterministic.2.2.2.2.1 300 0 (Json.num 5) 24 8
     300 0 (Json.num 5) 24 8 rfl rfl rfl rfl rfl⟩

/-- Claim C10: in the update-in-place branch of the singleton script (an
id-300 panel already present at first index `i`), the only element of the
panel sequence that changes is the panel at `i`; every other panel,
including its layout, is untouched, and the order and length of the
sequence are unchanged -- no offset shift is applied. -/
theorem c10_update_branch_frame {panels : List PanelR} {r i : Nat} {p : PanelR}
    {g : List (String × Json)} {y : Json}
    (hr : findRowIdx "Database Transactions" panels = some r)
    (hi : findFirst (hasId 300) panels = some i)
    (hp : panels[i]? = some p)
    (hg : getKey p "gridPos" = some (Json.obj g))
    (hy : getKey g "y" = some y) :
    add_tx_creation_panel_main panels =
      Except.ok (panels.set i (create_tx_creation_panel 300 0 y 24 8)) ∧
    (panels.set i (create_tx_creation_panel 300 0 y 24 8)).length = panels.length ∧
    ∀ j : Nat, j ≠ i →
      (panels.set i (create_tx_creation_panel 300 0 y 24 8))[j]? = panels[j]? := by
  refine ⟨txMain_update_branch hr hi hp hg hy, List.length_set panels i _, ?_⟩
  intro j hj
  exact List.getElem?_set_ne (fun e => hj e.symm)

/-- Witness for C10 on the concrete two-panel dashboard with the stale
id-300 panel at index 1. -/
theorem c10_update_branch_frame_witness :
    add_tx_creation_panel_main dashC2 =
      Except.ok (dashC2.set 1 (create_tx_creation_panel 300 0 (Json.num 5) 24 8)) ∧
    (dashC2.set 1 (create_tx_creation_panel 300 0 (Json.num 5) 24 8)).length =
      dashC2.length ∧
    ∀ j : Nat, j ≠ 1 →
      (dashC2.set 1 (create_tx_creation_panel 300 0 (Json.num 5) 24 8))[j]? =
        dashC2[j]? :=
  @c10_update_branch_frame dashC2 0 1 staleTxPanel
    [("h", Json.num 8), ("w", Json.num 24), ("x", Json.num 0), ("y", Json.num 5)]
    (Json.num 5) rfl rfl rfl rfl rfl

/-- Claim C6 counterexample: on the dashboard whose id-300 panel has the
rectangle h 4, w 12, x 3, y 5, the update-in-place run produces a panel
whose width is 24, not the 12 of the record it replaced, so the fresh
record does not occupy the same grid rectangle. -/
theorem c6_rectangle_counterexample :
    ((txRunFile dashC6)[1]?).bind (gridField "w") = some 24 ∧
    (dashC6[1]?).bind (gridField "w") = some 12 ∧
    ¬ (some (24 : Int) = some (12 : Int)) :=
  ⟨rfl, rfl, by decide⟩

/-- Claim C6 (amended): when an id-300 panel already exists, the update
branch replaces the first such record with a freshly constructed one that
keeps only the y coordinate of the replaced record; x, w and h are reset
to the fixed values 0, 24 and 8. -/
theorem c6_update_keeps_only_y {panels : List PanelR} {r i : Nat} {p : PanelR}
    {g : List (String × Json)} {y : Json}
    (hr : findRowIdx "Database Transactions" panels = some r)
    (hi : findFirst (hasId 300) panels = some i)
    (hp : panels[i]? = some p)
    (hg : getKey p "gridPos" = some (Json.obj g))
    (hy : getKey g "y" = some y) :
    add_tx_creation_panel_main panels =
      Except.ok (panels.set i (create_tx_creation_panel 300 0 y 24 8)) ∧
    getKey (create_tx_creation_panel 300 0 y 24 8) "gridPos" = some (Json.obj
      [("h", Json.num 8), ("w", Json.num 24), ("x", Json.num 0), ("y", y)]) :=
  ⟨txMain_update_branch hr hi hp hg hy, create_tx_gridPos y⟩

/-- Witness for the amended C6 on the odd-rectangle dashboard. -/
theorem c6_update_keeps_only_y_witness :
    add_tx_creation_panel_main dashC6 =
      Except.ok (dashC6.set 1 (create_tx_creation_panel 300 0 (Json.num 5) 24 8)) ∧
    getKey (create_tx_creation_panel 300 0 (Json.num 5) 24 8) "gridPos" =
      some (Json.obj
        [("h", Json.num 8), ("w", Json.num 24), ("x", Json.num 0), ("y", Json.num 5)]) :=
  @c6_update_keeps_only_y dashC6 0 1 oddRectTxPanel
    [("h", Json.num 4), ("w", Json.num 12), ("x", Json.num 3), ("y", Json.num 5)]
    (Json.num 5) rfl rfl rfl rfl rfl

/-- Claim C4 counterexample: on the concrete two-panel dashboard the bulk
insertion leaves panel id 2 at y 12 (the insertion index is the end of the
sequence, so nothing is shifted); it is not moved to y 52. -/
theorem c4_concrete_counterexample :
    ((dbRunFile dashC4)[1]?).bind (gridField "y") = some 12 ∧
    ¬ (some (12 : Int) = some (52 : Int)) :=
  ⟨rfl, by decide⟩

/-- Claim C4 (amended): on the concrete dashboard the section scan reaches
the end of the sequence (index 2), so the block is appended, panel id 2
keeps y 12, and the inserted block occupies absolute coordinates y 17
through 62 (its layout is hardcoded, not relative to the anchor). -/
theorem c4_concrete_amended :
    add_db_panels_main dashC4 = Except.ok (dashC4 ++ generate_db_panels) ∧
    sectionEnd dashC4 (0 + 1) = 2 ∧
    ((dbRunFile dashC4)[1]?).bind (gridField "y") = some 12 ∧
    blockTop generate_db_panels = some 17 ∧
    blockBottom generate_db_panels = some 62 :=
  ⟨rfl, rfl, rfl, rfl, rfl⟩

/-- Claim C1: the bulk script shifts every following panel by the fixed
constant 40 (the code comment itself calls it an approximate height),
while the exact total height of the inserted block is 45 (it spans y 17
to 62); on a dashboard with a row panel at y 12 below the insertion point
that panel ends at y 52, not at its original y plus the exact block
height. -/
theorem c1_constant_offset_not_exact :
    blockHeight generate_db_panels = some 45 ∧
    (dashC1[1]?).bind (gridField "y") = some 12 ∧
    ((dbRunFile dashC1)[24]?).bind (gridField "y") = some 52 ∧
    ¬ ((12 : Int) + 45 = 52) :=
  ⟨rfl, rfl, rfl, by decide⟩

/-- Claim C5 counterexample: the bulk insertion completes on a dashboard
whose only panel carries id 200 (all input ids unique), yet the resulting
sequence repeats id 200, because the generated block reuses ids 200-222. -/
theorem c5_duplicate_ids_counterexample :
    add_db_panels_main dashC5 = Except.ok (dbRunFile dashC5) ∧
    (panelIdNums dashC5).Nodup ∧
    ¬ (panelIdNums (dbRunFile dashC5)).Nodup :=
  ⟨rfl, by decide, by decide⟩

/-- Claim C5 (amended): a completed insertion keeps all panel ids unique
provided the input ids are unique and, for the bulk script, none of them
lies in the generated range 200-222; the singleton script needs no such
side condition (its reserved-id pre-check prevents a duplicate 300, also
when it is run again on its own output). -/
theorem c5_ids_unique_amended :
    (∀ (panels out : List PanelR), add_db_panels_main panels = Except.ok out →
      (panelIdNums panels).Nodup →
      (∀ n ∈ panelIdNums panels, n < 200 ∨ 222 < n) →
      (panelIdNums out).Nodup) ∧
    (∀ (panels out : List PanelR), add_tx_creation_panel_main panels = Except.ok out →
      (panelIdNums panels).Nodup → (panelIdNums out).Nodup) := by
  constructor
  · intro panels out hrun hnd hrange
    obtain ⟨r, shifted, hr, hshift, hout⟩ := dbMain_ok_cases hrun
    have hidsB : shifted.filterMap idOf =
        (panels.drop (sectionEnd panels (r + 1))).filterMap idOf :=
      mapOpt_filterMap_eq idOf (fun p q hpq => bumpDbPanel_idOf hpq) hshift
    have hsplit : panelIdNums panels =
        (panels.take (sectionEnd panels (r + 1))).filterMap idOf ++
          (panels.drop (sectionEnd panels (r + 1))).filterMap idOf := by
      unfold panelIdNums
      rw [← List.filterMap_append, List.take_append_drop]
    have houtids : panelIdNums out =
        ((panels.take (sectionEnd panels (r + 1))).filterMap idOf ++
          panelIdNums generate_db_panels) ++
          (panels.drop (sectionEnd panels (r + 1))).filterMap idOf := by
      rw [hout]
      unfold panelIdNums
      rw [List.filterMap_append, List.filterMap_append, hidsB]
    rw [hsplit, List.nodup_append] at hnd
    obtain ⟨hA, hB, hAB⟩ := hnd
    rw [hsplit] at hrange
    have hG_mem : ∀ m ∈ panelIdNums generate_db_panels, 200 ≤ m ∧ m ≤ 222 := by
      rw [generate_db_panels_ids]
      decide
    have hG_nodup : (panelIdNums generate_db_panels).Nodup := by
      rw [generate_db_panels_ids]
      decide
    rw [houtids, List.nodup_append]
    refine ⟨?_, hB, ?_⟩
    · rw [List.nodup_append]
      refine ⟨hA, hG_nodup, ?_⟩
      intro a haA haG
      have h1 := hrange a (List.mem_append.mpr (Or.inl haA))
      have h2 := hG_mem a haG
      omega
    · intro a haAG haB
      rcases List.mem_append.mp haAG with haA | haG
      · exact hAB haA haB
      · have h1 := hrange a (List.mem_append.mpr (Or.inr haB))
        have h2 := hG_mem a haG
        omega
  · intro panels out hrun hnd
    rcases txMain_ok_cases hrun with ⟨i, p, y, hp, hid, hout⟩ |
      ⟨r, row_y, shifted, hany, hshift, hout⟩
    · rw [hout]
      unfold panelIdNums
      rw [filterMap_set_eq idOf panels i p _ hp (by rw [create_tx_idOf, hid])]
      exact hnd
    · rw [hout]
      unfold panelIdNums
      simp only [List.filterMap_append, List.filterMap_cons, create_tx_idOf]
      rw [mapOpt_filterMap_eq idOf (fun p q hpq => bumpTxPanel_idOf hpq) hshift]
      have h300 : (300 : Int) ∉ panelIdNums panels := not_mem_ids_of_any_false hany
      have hsplit : panelIdNums panels =
          (panels.take (r + 1)).filterMap idOf ++
            (panels.drop (r + 1)).filterMap idOf := by
        unfold panelIdNums
        rw [← List.filterMap_append, List.take_append_drop]
      rw [hsplit] at hnd h300
      exact List.nodup_middle.mpr (List.nodup_cons.mpr ⟨h300, hnd⟩)

/-- Witness for the amended C5 on both scripts' concrete runs. -/
theorem c5_ids_unique_amended_witness :
    (panelIdNums (dbRunFile dashC4)).Nodup ∧
    (panelIdNums (txRunFile dashC2)).Nodup :=
  ⟨c5_ids_unique_amended.1 dashC4 (dbRunFile dashC4) rfl (by decide) (by decide),
   c5_ids_unique_amended.2 dashC2 (txRunFile dashC2) rfl (by decide)⟩

end Spec2Proof
